import Mathlib

/-!
Verification of the dialogue-control core of the repository:
`ObjectRegistry`, `TopicTracker`, `DriftDetector` and `TurnController`
(files `backend/dialogue_control/object_registry.py`, `topic_tracker.py`,
`drift_detector.py`, `turn_controller-old.py`), shallowly embedded as
executable Lean functions over explicit state records.

Python dictionaries are modelled as insertion-ordered association lists
(`List (String × Node)`), matching the insertion-order semantics of
`dict`.  Severities (Python floats compared against literals such as
`0.8`) are modelled as rationals; all comparisons appearing in the code
are threshold comparisons whose outcomes agree with the float ones for
the literal values involved.  Turn indices are natural numbers
(documented 0-based in the source); the detector's `_last_turn_checked`
starts at `-1` and is therefore an integer.
-/

/-- ASCII case-folding (Python `str.lower`), written over the character list
so that it reduces inside the kernel. -/
def String.sLower (s : String) : String :=
  ⟨s.data.map Char.toLower⟩

/-- Whitespace trimming (Python `str.strip`), written over the character list
so that it reduces inside the kernel. -/
def String.sTrim (s : String) : String :=
  ⟨((s.data.dropWhile Char.isWhitespace).reverse.dropWhile Char.isWhitespace).reverse⟩

/-! ## ObjectRegistry (object_registry.py) -/

/-- `ObjectStatus` from `object_registry.py`. -/
inductive ObjectStatus where
  | confirmed
  | assumed
  | denied
  | unknown
deriving DecidableEq, Repr

/-- `ObjectEvidence` dataclass. -/
structure ObjectEvidence where
  turn_index : Nat
  role : String
  text : String
  note : String
deriving DecidableEq, Repr

/-- `ObjectNode` dataclass. -/
structure ObjectNode where
  object_id : String
  label : String
  status : ObjectStatus
  evidence : List ObjectEvidence
  last_updated_turn : Nat
deriving DecidableEq, Repr

/-- `ObjectRegistry` state: `_objects` (insertion-ordered dict) and `_turn_index`. -/
structure ObjectRegistry where
  objects : List (String × ObjectNode)
  turn_index : Nat
deriving DecidableEq, Repr

/-- First-match association-list lookup (Python `dict.get`). -/
def lookupObj : List (String × ObjectNode) → String → Option ObjectNode
  | [], _ => none
  | (k, n) :: rest, i => if k = i then some n else lookupObj rest i

/-- In-place update of the first entry with the given key (Python mutation of
a dict value). -/
def updateObj : List (String × ObjectNode) → String → (ObjectNode → ObjectNode) →
    List (String × ObjectNode)
  | [], _, _ => []
  | (k, n) :: rest, i, f =>
    if k = i then (k, f n) :: rest else (k, n) :: updateObj rest i f

/-- `ObjectRegistry._normalize`: trim, case-fold, `_empty_` fallback. -/
def normalizeObj (raw : String) : String × String :=
  let label := raw.sTrim
  let object_id := label.sLower
  if object_id = "" then ("_empty_", "_empty_") else (object_id, label)

/-- Fresh registry (`ObjectRegistry.__init__`). -/
def ObjectRegistry.init : ObjectRegistry :=
  { objects := [], turn_index := 0 }

/-- `ObjectRegistry.on_turn_start`. -/
def ObjectRegistry.on_turn_start (r : ObjectRegistry) (turn_index : Nat) : ObjectRegistry :=
  { r with turn_index := turn_index }

/-- `ObjectRegistry.register_assumed`. -/
def ObjectRegistry.register_assumed (r : ObjectRegistry) (name role text note : String) :
    ObjectRegistry :=
  let (object_id, label) := normalizeObj name
  match lookupObj r.objects object_id with
  | none =>
    -- created with status ASSUMED; the DENIED guard cannot fire on a fresh node,
    -- and the subsequent unconditional branch re-sets ASSUMED and appends evidence
    let node : ObjectNode :=
      { object_id := object_id, label := label, status := ObjectStatus.assumed,
        evidence := [], last_updated_turn := r.turn_index }
    let node :=
      { node with
        status := ObjectStatus.assumed
        last_updated_turn := r.turn_index
        evidence := node.evidence ++
          [{ turn_index := r.turn_index, role := role, text := text, note := note }] }
    { r with objects := r.objects ++ [(object_id, node)] }
  | some node =>
    if node.status = ObjectStatus.denied then
      { r with objects := updateObj r.objects object_id (fun n =>
          { n with
            evidence := n.evidence ++
              [{ turn_index := r.turn_index, role := role, text := text,
                 note := ("(assumed-but-denied) " ++ note).sTrim }]
            last_updated_turn := r.turn_index }) }
    else
      { r with objects := updateObj r.objects object_id (fun n =>
          { n with
            status := ObjectStatus.assumed
            last_updated_turn := r.turn_index
            evidence := n.evidence ++
              [{ turn_index := r.turn_index, role := role, text := text, note := note }] }) }

/-- `ObjectRegistry.confirm`. -/
def ObjectRegistry.confirm (r : ObjectRegistry) (name role text note : String) :
    ObjectRegistry :=
  let (object_id, label) := normalizeObj name
  match lookupObj r.objects object_id with
  | none =>
    let node : ObjectNode :=
      { object_id := object_id, label := label, status := ObjectStatus.confirmed,
        evidence := [{ turn_index := r.turn_index, role := role, text := text, note := note }],
        last_updated_turn := r.turn_index }
    { r with objects := r.objects ++ [(object_id, node)] }
  | some _ =>
    { r with objects := updateObj r.objects object_id (fun n =>
        { n with
          status := ObjectStatus.confirmed
          last_updated_turn := r.turn_index
          evidence := n.evidence ++
            [{ turn_index := r.turn_index, role := role, text := text, note := note }] }) }

/-- `ObjectRegistry.deny`. -/
def ObjectRegistry.deny (r : ObjectRegistry) (name role text reason : String) :
    ObjectRegistry :=
  let (object_id, label) := normalizeObj name
  match lookupObj r.objects object_id with
  | none =>
    let node : ObjectNode :=
      { object_id := object_id, label := label, status := ObjectStatus.denied,
        evidence := [{ turn_index := r.turn_index, role := role, text := text,
                       note := ("(denied) " ++ reason).sTrim }],
        last_updated_turn := r.turn_index }
    { r with objects := r.objects ++ [(object_id, node)] }
  | some _ =>
    { r with objects := updateObj r.objects object_id (fun n =>
        { n with
          status := ObjectStatus.denied
          last_updated_turn := r.turn_index
          evidence := n.evidence ++
            [{ turn_index := r.turn_index, role := role, text := text,
               note := ("(denied) " ++ reason).sTrim }] }) }

/-- `ObjectRegistry.can_assume_exists`. -/
def ObjectRegistry.can_assume_exists (r : ObjectRegistry) (name : String) : Bool :=
  match lookupObj r.objects (normalizeObj name).1 with
  | none => false
  | some node => node.status = ObjectStatus.confirmed

/-- `ObjectRegistry.is_denied`. -/
def ObjectRegistry.is_denied (r : ObjectRegistry) (name : String) : Bool :=
  match lookupObj r.objects (normalizeObj name).1 with
  | none => false
  | some node => node.status = ObjectStatus.denied

/-! ## DriftDetector (drift_detector.py) -/

/-- `DriftType` enumeration. -/
inductive DriftType where
  | assumption_leap
  | topic_shift
  | object_overcommit
  | denial_ignored
  | speculation_chain
  | question_loop
deriving DecidableEq, Repr

/-- `DriftEvent` dataclass; `severity` is a Python float, modelled as `ℚ`. -/
structure DriftEvent where
  drift_type : DriftType
  turn_index : Nat
  description : String
  severity : ℚ
deriving DecidableEq, Repr

/-- The `user_intent` mapping: the boolean keys read by `detect`
(absent keys default to false via `dict.get`). -/
structure UserIntent where
  explicit_topic_change : Bool
  requested_speculation : Bool
deriving DecidableEq, Repr

/-- The `ai_intent` mapping: the boolean keys read by `detect`. -/
structure AiIntent where
  speculation : Bool
  is_question : Bool
  followup_question : Bool
deriving DecidableEq, Repr

/-- One element of `object_events`: a `{type, name}` mapping. -/
structure ObjEvent where
  etype : String
  name : String
deriving DecidableEq, Repr

/-- `DriftDetector` rolling state. -/
structure DriftDetector where
  last_turn_checked : Int
  recent_questions : List Nat
  recent_speculation : List Nat
deriving DecidableEq, Repr

/-- Fresh detector (`DriftDetector.__init__`). -/
def DriftDetector.init : DriftDetector :=
  { last_turn_checked := -1, recent_questions := [], recent_speculation := [] }

/-- Python list slice `l[-n:]`. -/
def lastN (n : Nat) (l : List Nat) : List Nat :=
  l.drop (l.length - n)

/-- Python string truthiness for an `Optional[str]`. -/
def strTruthy : Option String → Bool
  | none => false
  | some s => s ≠ ""

/-- `DriftDetector.detect`: returns the updated detector state and the event
list.  Event order follows the source: topic shift, object events,
assumption leap, question loop, speculation chain. -/
def DriftDetector.detect (d : DriftDetector) (turn_index : Nat)
    (user_intent : UserIntent) (ai_intent : AiIntent)
    (topic_before topic_after : Option String)
    (object_events : List ObjEvent) : DriftDetector × List DriftEvent :=
  if (turn_index : Int) ≤ d.last_turn_checked then (d, [])
  else
    let events : List DriftEvent :=
      if strTruthy topic_before ∧ strTruthy topic_after ∧ topic_before ≠ topic_after ∧
          user_intent.explicit_topic_change = false then
        [{ drift_type := DriftType.topic_shift, turn_index := turn_index,
           description := "Topic shifted from \x27" ++ topic_before.getD "" ++
             "\x27 to \x27" ++ topic_after.getD "" ++ "\x27 without explicit user consent",
           severity := mkRat 6 10 }]
      else []
    let events := events ++ object_events.foldl (fun acc ev =>
      let acc := if ev.etype = "assumed" then
          acc ++ [{ drift_type := DriftType.object_overcommit, turn_index := turn_index,
                    description := "Object \x27" ++ ev.name ++
                      "\x27 treated as existing without confirmation",
                    severity := mkRat 7 10 }]
        else acc
      if ev.etype = "denied_but_used" then
        acc ++ [{ drift_type := DriftType.denial_ignored, turn_index := turn_index,
                  description := "Denied object \x27" ++ ev.name ++ "\x27 referenced again",
                  severity := mkRat 9 10 }]
      else acc) []
    let recent_speculation :=
      if ai_intent.speculation then lastN 3 (d.recent_speculation ++ [turn_index])
      else d.recent_speculation
    let events :=
      if ai_intent.speculation ∧ user_intent.requested_speculation = false then
        events ++ [{ drift_type := DriftType.assumption_leap, turn_index := turn_index,
                     description := "AI introduced speculative premise without user request",
                     severity := mkRat 6 10 }]
      else events
    let recent_questions :=
      if ai_intent.is_question then lastN 5 (d.recent_questions ++ [turn_index])
      else d.recent_questions
    let events :=
      if ai_intent.is_question ∧ 3 ≤ recent_questions.length ∧
          user_intent.explicit_topic_change = false then
        events ++ [{ drift_type := DriftType.question_loop, turn_index := turn_index,
                     description := "AI is repeatedly asking questions without resolution",
                     severity := mkRat 5 10 }]
      else events
    let events :=
      if 2 ≤ recent_speculation.length ∧ ai_intent.followup_question then
        events ++ [{ drift_type := DriftType.speculation_chain, turn_index := turn_index,
                     description := "Speculative reasoning chained across multiple turns",
                     severity := mkRat 8 10 }]
      else events
    ({ last_turn_checked := turn_index, recent_questions := recent_questions,
       recent_speculation := recent_speculation }, events)

/-- `DriftDetector.has_critical_drift`. -/
def hasCriticalDrift (events : List DriftEvent) : Bool :=
  events.any fun ev => mkRat 8 10 ≤ ev.severity

/-! ## TurnController (turn_controller-old.py) -/

/-- `TurnMode` enumeration. -/
inductive TurnMode where
  | normal
  | refocus
  | fact_only
  | no_question
  | repair
  | short_response
deriving DecidableEq, Repr

/-- `TurnInstruction` dataclass. -/
structure TurnInstruction where
  mode : TurnMode
  allow_speculation : Bool
  allow_questions : Bool
  max_tokens : Nat
  notes : List String
deriving DecidableEq, Repr

/-- The body of `TurnController.decide`'s event loop for one event: the six
independent `if` statements of the source, applied in order. -/
def decideStep (ins : TurnInstruction) (ev : DriftEvent) : TurnInstruction :=
  let ins := if ev.drift_type = DriftType.object_overcommit then
      { ins with
        allow_speculation := false
        notes := ins.notes ++ ["Disable speculation due to object overcommit"] }
    else ins
  let ins := if ev.drift_type = DriftType.assumption_leap then
      { ins with
        allow_speculation := false
        notes := ins.notes ++ ["Prevent assumption leap"] }
    else ins
  let ins := if ev.drift_type = DriftType.denial_ignored then
      { ins with
        mode := TurnMode.repair
        allow_questions := false
        allow_speculation := false
        max_tokens := 150
        notes := ins.notes ++ ["Repair mode due to denial ignored"] }
    else ins
  let ins := if ev.drift_type = DriftType.topic_shift then
      { ins with
        mode := TurnMode.refocus
        notes := ins.notes ++ ["Refocus conversation topic"] }
    else ins
  let ins := if ev.drift_type = DriftType.question_loop then
      { ins with
        allow_questions := false
        max_tokens := 180
        notes := ins.notes ++ ["Question loop detected, disable questions"] }
    else ins
  if ev.drift_type = DriftType.speculation_chain then
    { ins with
      mode := TurnMode.fact_only
      allow_speculation := false
      allow_questions := false
      max_tokens := 200
      notes := ins.notes ++ ["Speculation chain stopped"] }
  else ins

/-- `TurnController.decide`: defaults, per-event loop, critical override,
multi-event shortening. -/
def TurnController.decide (drift_events : List DriftEvent) : TurnInstruction :=
  let critical := drift_events.any fun ev => mkRat 8 10 ≤ ev.severity
  let ins : TurnInstruction :=
    { mode := TurnMode.normal
      allow_speculation := true
      allow_questions := true
      max_tokens := 300
      notes := [] }
  let ins := drift_events.foldl decideStep ins
  let ins := if critical then
      { ins with
        mode := TurnMode.repair
        allow_speculation := false
        allow_questions := false
        max_tokens := min ins.max_tokens 150
        notes := ins.notes ++ ["Critical drift override applied"] }
    else ins
  if 3 ≤ drift_events.length then
    { ins with
      max_tokens := min ins.max_tokens 120
      notes := ins.notes ++ ["Multiple drift events, enforce short response"] }
  else ins

/-! ## TopicTracker (topic_tracker.py) -/

/-- `TopicStatus` enumeration. -/
inductive TopicStatus where
  | active
  | available
  | speculative
  | rejected
  | dormant
deriving DecidableEq, Repr

/-- `TopicEvidence` dataclass. -/
structure TopicEvidence where
  turn_index : Nat
  role : String
  text : String
  note : String
deriving DecidableEq, Repr

/-- `TopicNode` dataclass. -/
structure TopicNode where
  topic_id : String
  label : String
  status : TopicStatus
  parent_id : Option String
  children_ids : List String
  evidence : List TopicEvidence
  last_touched_turn : Nat
  rejected_reason : String
deriving DecidableEq, Repr

/-- `TopicTracker` state: configuration plus `_turn_index`, `_topics`
(insertion-ordered dict), `_active_topic_id`, `_focus_history`. -/
structure TopicTracker where
  max_topics : Nat
  dormant_after_turns : Nat
  allow_revival : Bool
  turn_index : Nat
  topics : List (String × TopicNode)
  active_topic_id : Option String
  focus_history : List (Option String)
deriving DecidableEq, Repr

/-- Fresh tracker (`TopicTracker.__init__`). -/
def TopicTracker.init (max_topics dormant_after_turns : Nat) (allow_revival : Bool) :
    TopicTracker :=
  { max_topics := max_topics
    dormant_after_turns := dormant_after_turns
    allow_revival := allow_revival
    turn_index := 0
    topics := []
    active_topic_id := none
    focus_history := [] }

/-- First-match association-list lookup (Python `dict.get`). -/
def lookupTopic : List (String × TopicNode) → String → Option TopicNode
  | [], _ => none
  | (k, n) :: rest, i => if k = i then some n else lookupTopic rest i

/-- In-place update of the first entry with the given key (Python mutation of
a dict value). -/
def updateTopic : List (String × TopicNode) → String → (TopicNode → TopicNode) →
    List (String × TopicNode)
  | [], _, _ => []
  | (k, n) :: rest, i, f =>
    if k = i then (k, f n) :: rest else (k, n) :: updateTopic rest i f

/-- `TopicTracker._normalize_topic`: trim, case-fold, `_empty_` fallback. -/
def normalizeTopic (raw : String) : String × String :=
  let label := raw.sTrim
  let topic_id := label.sLower
  if topic_id = "" then ("_empty_", "_empty_") else (topic_id, label)

/-- Is an entry protected from eviction (`_enforce_max_topics`):
its id is the current ACTIVE id, or its status is REJECTED. -/
def protectedEntry (active : Option String) (k : String) (n : TopicNode) : Bool :=
  active = some k ∨ n.status = TopicStatus.rejected

/-- Stable ascending insertion by `last_touched_turn`: an element is placed
before the first strictly larger key, matching Python's stable sort. -/
def insertByTouched (x : String × TopicNode) :
    List (String × TopicNode) → List (String × TopicNode)
  | [] => [x]
  | y :: ys =>
    if x.2.last_touched_turn ≤ y.2.last_touched_turn then x :: y :: ys
    else y :: insertByTouched x ys

/-- Stable sort of entries by ascending `last_touched_turn`
(`candidates.sort(key=lambda t: t.last_touched_turn)`). -/
def sortByTouched (l : List (String × TopicNode)) : List (String × TopicNode) :=
  l.foldr insertByTouched []

/-- Drop an eviction victim's id from its parent's `children_ids` (when the
parent id is set and denotes a stored topic). -/
def repairParent (vid : String) (parent_id : Option String)
    (ts : List (String × TopicNode)) : List (String × TopicNode) :=
  match parent_id with
  | none => ts
  | some pid =>
    if pid = "" then ts
    else updateTopic ts pid (fun p => { p with children_ids := p.children_ids.erase vid })

/-- Clear `parent_id` on each of the victim's children. -/
def clearChildren (cids : List String) (ts : List (String × TopicNode)) :
    List (String × TopicNode) :=
  cids.foldl (fun acc cid => updateTopic acc cid (fun c => { c with parent_id := none })) ts

/-- Remove one eviction victim: drop its id from the parent's `children_ids`,
clear `parent_id` on each of its children, delete the entry. -/
def evictOne (ts : List (String × TopicNode)) (vid : String) :
    List (String × TopicNode) :=
  match lookupTopic ts vid with
  | none => ts
  | some victim =>
    (clearChildren victim.children_ids (repairParent vid victim.parent_id ts)).filter
      (fun e => e.1 ≠ vid)

/-- The `while` loop of `_enforce_max_topics`: evict the listed victims in
order while the topic count still exceeds the bound. -/
def evictLoop (maxT : Nat) : List (String × TopicNode) → List String →
    List (String × TopicNode)
  | ts, [] => ts
  | ts, v :: rest =>
    if maxT < ts.length then evictLoop maxT (evictOne ts v) rest else ts

/-- The ascending-sorted eviction candidates of `_enforce_max_topics`:
all entries that are neither the ACTIVE id nor REJECTED. -/
def evictionCandidates (t : TopicTracker) : List (String × TopicNode) :=
  sortByTouched (t.topics.filter (fun e => ¬ protectedEntry t.active_topic_id e.1 e.2))

/-- `TopicTracker._enforce_max_topics`. -/
def TopicTracker.enforce_max_topics (t : TopicTracker) : TopicTracker :=
  if t.topics.length ≤ t.max_topics then t
  else { t with topics := evictLoop t.max_topics t.topics ((evictionCandidates t).map (·.1)) }

/-- The `_apply_dormant_rules` transition of one node: ACTIVE and REJECTED
are skipped; any other node untouched for at least `dormant_after_turns`
turns becomes DORMANT. -/
def dormantNode (dormant_after_turns turn_index : Nat) (n : TopicNode) : TopicNode :=
  if n.status = TopicStatus.active ∨ n.status = TopicStatus.rejected then n
  else if (dormant_after_turns : Int) ≤ (turn_index : Int) - (n.last_touched_turn : Int)
  then { n with status := TopicStatus.dormant }
  else n

/-- `TopicTracker.on_turn_start`: set the turn index, apply
`_apply_dormant_rules`, append the focus to `_focus_history`. -/
def TopicTracker.on_turn_start (t : TopicTracker) (turn_index : Nat) : TopicTracker :=
  { t with
    turn_index := turn_index
    topics := t.topics.map (fun e => (e.1, dormantNode t.dormant_after_turns turn_index e.2))
    focus_history := t.focus_history ++ [t.active_topic_id] }

/-- One iteration of the candidate loop in `register_candidates`. -/
def registerOne (role text : String) (speculative : Bool) (parent_id : Option String)
    (note : String) (t : TopicTracker) (raw : String) : TopicTracker :=
  let (topic_id, label) := normalizeTopic raw
  match lookupTopic t.topics topic_id with
  | some existing =>
    if existing.status = TopicStatus.rejected ∧ t.allow_revival = false then
      -- evidence-only append, plus a `last_touched_turn` refresh
      { t with topics := updateTopic t.topics topic_id (fun n =>
          { n with
            evidence := n.evidence ++
              [{ turn_index := t.turn_index, role := role, text := text,
                 note := ("(rejected-topic-mentioned) " ++ note).sTrim }]
            last_touched_turn := t.turn_index }) }
    else
      -- existing-node refresh
      let t := { t with topics := updateTopic t.topics topic_id (fun n =>
          let n := { n with
            last_touched_turn := t.turn_index
            evidence := n.evidence ++
              [{ turn_index := t.turn_index, role := role, text := text, note := note }] }
          if speculative ∧ ¬ (n.status = TopicStatus.rejected ∨ n.status = TopicStatus.active)
          then { n with status := TopicStatus.speculative }
          else n) }
      match existing.parent_id, parent_id with
      | none, some pid =>
        let t := { t with topics := updateTopic t.topics topic_id (fun n =>
            { n with parent_id := some pid }) }
        match lookupTopic t.topics pid with
        | none => t
        | some _ =>
          { t with topics := updateTopic t.topics pid (fun p =>
              if topic_id ∈ p.children_ids then p
              else { p with children_ids := p.children_ids ++ [topic_id] }) }
      | _, _ => t
  | none =>
    -- new node
    let status := if speculative then TopicStatus.speculative else TopicStatus.available
    let node : TopicNode :=
      { topic_id := topic_id
        label := label
        status := status
        parent_id := parent_id
        children_ids := []
        evidence := [{ turn_index := t.turn_index, role := role, text := text, note := note }]
        last_touched_turn := t.turn_index
        rejected_reason := "" }
    let t := { t with topics := t.topics ++ [(topic_id, node)] }
    match parent_id with
    | none => t
    | some pid =>
      if pid = "" then t
      else match lookupTopic t.topics pid with
        | none => t
        | some _ =>
          { t with topics := updateTopic t.topics pid (fun p =>
              if topic_id ∈ p.children_ids then p
              else { p with children_ids := p.children_ids ++ [topic_id] }) }

/-- `TopicTracker.register_candidates`: process every candidate, then
enforce the topic bound. -/
def TopicTracker.register_candidates (t : TopicTracker) (role text : String)
    (candidates : List String) (speculative : Bool) (parent_hint : Option String)
    (note : String) : TopicTracker :=
  let parent_id := match parent_hint with
    | some p => if p = "" then t.active_topic_id else some p
    | none => t.active_topic_id
  let t := candidates.foldl (registerOne role text speculative parent_id note) t
  t.enforce_max_topics

/-- `TopicTracker.reject_topic`. -/
def TopicTracker.reject_topic (t : TopicTracker) (topic reason role text note : String) :
    TopicTracker :=
  let (topic_id, label) := normalizeTopic topic
  let t : TopicTracker := match lookupTopic t.topics topic_id with
    | none =>
      let node : TopicNode :=
        { topic_id := topic_id
          label := label
          status := TopicStatus.rejected
          parent_id := none
          children_ids := []
          evidence := [{ turn_index := t.turn_index, role := role, text := text,
                         note := ("(rejected-created) " ++ note).sTrim }]
          last_touched_turn := t.turn_index
          rejected_reason := reason }
      { t with topics := t.topics ++ [(topic_id, node)] }
    | some _ =>
      { t with topics := updateTopic t.topics topic_id (fun n =>
          { n with
            status := TopicStatus.rejected
            rejected_reason := reason
            last_touched_turn := t.turn_index
            evidence := n.evidence ++
              [{ turn_index := t.turn_index, role := role, text := text,
                 note := ("(rejected) " ++ note).sTrim }] }) }
  let t := if t.active_topic_id = some topic_id then { t with active_topic_id := none } else t
  t.enforce_max_topics

/-- `TopicTracker.apply_user_corrections`: reject each supplied pair. -/
def TopicTracker.apply_user_corrections (t : TopicTracker) (user_text : String)
    (correction_signals : List (String × String)) : TopicTracker :=
  correction_signals.foldl
    (fun t sig => t.reject_topic sig.1 sig.2 "user" user_text "") t

/-- `TopicTracker.set_focus`. -/
def TopicTracker.set_focus (t : TopicTracker) (topic : String) : TopicTracker :=
  let (topic_id, label) := normalizeTopic topic
  let pair : TopicTracker × TopicNode := match lookupTopic t.topics topic_id with
    | some n => (t, n)
    | none =>
      let node : TopicNode :=
        { topic_id := topic_id
          label := label
          status := TopicStatus.available
          parent_id := none
          children_ids := []
          evidence := [{ turn_index := t.turn_index, role := "system", text := "",
                         note := "(focus-created)" }]
          last_touched_turn := t.turn_index
          rejected_reason := "" }
      ({ t with topics := t.topics ++ [(topic_id, node)] }, node)
  let t := pair.1
  let node := pair.2
  if node.status = TopicStatus.rejected ∧ t.allow_revival = false then
    { t with active_topic_id := none }
  else
    let t := match t.active_topic_id with
      | none => t
      | some prev_id =>
        match lookupTopic t.topics prev_id with
        | none => t
        | some prev =>
          if prev.status = TopicStatus.active then
            { t with topics := updateTopic t.topics prev_id (fun p =>
                { p with status := TopicStatus.available }) }
          else t
    let t := { t with
      topics := updateTopic t.topics topic_id (fun n =>
        { n with status := TopicStatus.active, last_touched_turn := t.turn_index })
      active_topic_id := some topic_id }
    t.enforce_max_topics

/-- The stable `reverse=True` sort followed by taking the head, as used in
`finalize_focus`: the earliest-inserted entry among those with maximal
`last_touched_turn`. -/
def pickMostRecent (l : List (String × TopicNode)) : Option (String × TopicNode) :=
  l.foldl (fun acc e =>
    match acc with
    | none => some e
    | some m => if m.2.last_touched_turn < e.2.last_touched_turn then some e else some m) none

/-- `TopicTracker.finalize_focus`: returns the new state and the resulting
active id. -/
def TopicTracker.finalize_focus (t : TopicTracker) (suggested_focus : Option String)
    (fallback_to_recent : Bool) : TopicTracker × Option String :=
  if strTruthy suggested_focus then
    let t := t.set_focus (suggested_focus.getD "")
    (t, t.active_topic_id)
  else if fallback_to_recent then
    let cands := t.topics.filter (fun e =>
      e.2.status = TopicStatus.available ∨ e.2.status = TopicStatus.speculative ∨
        e.2.status = TopicStatus.active)
    match pickMostRecent cands with
    | none => (t, t.active_topic_id)
    | some best =>
      let t := t.set_focus best.2.topic_id
      (t, t.active_topic_id)
  else (t, t.active_topic_id)

/-- `TopicTracker.is_topic_confirmed`. -/
def TopicTracker.is_topic_confirmed (t : TopicTracker) (topic : String) : Bool :=
  match lookupTopic t.topics (normalizeTopic topic).1 with
  | none => false
  | some node => node.status = TopicStatus.active ∨ node.status = TopicStatus.available

/-- `TopicTracker.should_avoid_assertive_questions`. -/
def TopicTracker.should_avoid_assertive_questions (t : TopicTracker) : Bool :=
  match t.active_topic_id with
  | none => false
  | some a =>
    match lookupTopic t.topics a with
    | none => false
    | some node => node.status = TopicStatus.speculative

/-! ## Association-list lemmas -/

theorem lookupObj_update_self (l : List (String × ObjectNode)) (i : String)
    (f : ObjectNode → ObjectNode) :
    lookupObj (updateObj l i f) i = (lookupObj l i).map f := by
  induction l with
  | nil => simp [lookupObj, updateObj]
  | cons e rest ih =>
    obtain ⟨k, n⟩ := e
    by_cases h : k = i
    · simp [lookupObj, updateObj, h]
    · simp [lookupObj, updateObj, h, ih]

theorem lookupObj_update_other (l : List (String × ObjectNode)) (i j : String)
    (f : ObjectNode → ObjectNode) (h : j ≠ i) :
    lookupObj (updateObj l i f) j = lookupObj l j := by
  induction l with
  | nil => simp [lookupObj, updateObj]
  | cons e rest ih =>
    obtain ⟨k, n⟩ := e
    by_cases hk : k = i
    · subst hk
      simp [lookupObj, updateObj, Ne.symm h]
    · by_cases hj : k = j <;> simp [lookupObj, updateObj, hk, hj, h, ih]

theorem lookupTopic_update_self (l : List (String × TopicNode)) (i : String)
    (f : TopicNode → TopicNode) :
    lookupTopic (updateTopic l i f) i = (lookupTopic l i).map f := by
  induction l with
  | nil => simp [lookupTopic, updateTopic]
  | cons e rest ih =>
    obtain ⟨k, n⟩ := e
    by_cases h : k = i
    · simp [lookupTopic, updateTopic, h]
    · simp [lookupTopic, updateTopic, h, ih]

theorem lookupTopic_update_other (l : List (String × TopicNode)) (i j : String)
    (f : TopicNode → TopicNode) (h : j ≠ i) :
    lookupTopic (updateTopic l i f) j = lookupTopic l j := by
  induction l with
  | nil => simp [lookupTopic, updateTopic]
  | cons e rest ih =>
    obtain ⟨k, n⟩ := e
    by_cases hk : k = i
    · subst hk
      simp [lookupTopic, updateTopic, Ne.symm h]
    · by_cases hj : k = j <;> simp [lookupTopic, updateTopic, hk, hj, h, ih]

theorem updateTopic_length (l : List (String × TopicNode)) (i : String)
    (f : TopicNode → TopicNode) : (updateTopic l i f).length = l.length := by
  induction l with
  | nil => simp [updateTopic]
  | cons e rest ih =>
    obtain ⟨k, n⟩ := e
    by_cases h : k = i <;> simp [updateTopic, h, ih]


/-! ## C2: critical override in TurnController.decide -/

/-- C2 — for every event list containing at least one event with severity
at least 0.8, `TurnController.decide` returns mode = REPAIR,
`allow_speculation = false`, `allow_questions = false` and
`max_tokens ≤ 150`, regardless of which other events are present or their
order. -/
theorem C2_critical_override (events : List DriftEvent)
    (h : ∃ ev ∈ events, mkRat 8 10 ≤ ev.severity) :
    (TurnController.decide events).mode = TurnMode.repair ∧
      (TurnController.decide events).allow_speculation = false ∧
      (TurnController.decide events).allow_questions = false ∧
      (TurnController.decide events).max_tokens ≤ 150 := by
  have hc : (events.any fun ev => decide (mkRat 8 10 ≤ ev.severity)) = true := by
    rw [List.any_eq_true]
    obtain ⟨ev, hm, hs⟩ := h
    exact ⟨ev, hm, by simpa using hs⟩
  unfold TurnController.decide
  simp only [hc, if_true]
  split <;> exact ⟨rfl, rfl, rfl, by simp⟩

/-- C2 witness: a singleton DENIAL_IGNORED event (severity 0.9) with the
hypothesis discharged concretely. -/
theorem C2_critical_override_witness :
    (∃ ev ∈ [({ drift_type := DriftType.denial_ignored, turn_index := 9
                description := "Denied object \x27sword\x27 referenced again"
                severity := mkRat 9 10 } : DriftEvent)], mkRat 8 10 ≤ ev.severity) ∧
      (TurnController.decide
          [({ drift_type := DriftType.denial_ignored, turn_index := 9
              description := "Denied object \x27sword\x27 referenced again"
              severity := mkRat 9 10 } : DriftEvent)]).mode = TurnMode.repair ∧
      (TurnController.decide
          [({ drift_type := DriftType.denial_ignored, turn_index := 9
              description := "Denied object \x27sword\x27 referenced again"
              severity := mkRat 9 10 } : DriftEvent)]).allow_speculation = false ∧
      (TurnController.decide
          [({ drift_type := DriftType.denial_ignored, turn_index := 9
              description := "Denied object \x27sword\x27 referenced again"
              severity := mkRat 9 10 } : DriftEvent)]).allow_questions = false ∧
      (TurnController.decide
          [({ drift_type := DriftType.denial_ignored, turn_index := 9
              description := "Denied object \x27sword\x27 referenced again"
              severity := mkRat 9 10 } : DriftEvent)]).max_tokens ≤ 150 :=
  ⟨by decide, C2_critical_override _ (by decide)⟩

/-! ## C4: the max_tokens reduction in TurnController.decide -/

/-- The claim's formula for the response-length bound, following the claim's
words: start at 300 and apply `min` cumulatively per event, then the
critical cap, then the multi-event cap.  This is the spec-side model used
only for comparison with the code-side `TurnController.decide`. -/
def specC4MaxTokens (events : List DriftEvent) : Nat :=
  let n := events.foldl (fun cur ev =>
    match ev.drift_type with
    | DriftType.denial_ignored => min cur 150
    | DriftType.question_loop => min cur 180
    | DriftType.speculation_chain => min cur 200
    | _ => cur) 300
  let n := if events.any (fun ev => decide (mkRat 8 10 ≤ ev.severity)) then min n 150 else n
  if 3 ≤ events.length then min n 120 else n

/-- The amended formula: each length-bearing event overwrites the current
budget (`150`, `180`, `200` by direct assignment, not `min`); the two final
caps are unchanged. -/
def assignedStep (cur : Nat) (ev : DriftEvent) : Nat :=
  match ev.drift_type with
  | DriftType.denial_ignored => 150
  | DriftType.question_loop => 180
  | DriftType.speculation_chain => 200
  | _ => cur

/-- The amended-claim model of the final `max_tokens`. -/
def assignedMaxTokens (events : List DriftEvent) : Nat :=
  let n := events.foldl assignedStep 300
  let n := if events.any (fun ev => decide (mkRat 8 10 ≤ ev.severity)) then min n 150 else n
  if 3 ≤ events.length then min n 120 else n

theorem decideStep_max_tokens (ins : TurnInstruction) (ev : DriftEvent) :
    (decideStep ins ev).max_tokens = assignedStep ins.max_tokens ev := by
  cases h : ev.drift_type <;> simp [decideStep, assignedStep, h]

theorem foldl_decideStep_max_tokens (events : List DriftEvent) (ins : TurnInstruction) :
    (events.foldl decideStep ins).max_tokens = events.foldl assignedStep ins.max_tokens := by
  induction events generalizing ins with
  | nil => rfl
  | cons ev rest ih => rw [List.foldl_cons, List.foldl_cons, ih, decideStep_max_tokens]

/-- C4 counterexample — for the list [QUESTION_LOOP, SPECULATION_CHAIN]
(severities 0.5 each, so no critical cap), the code yields 200 while the
claim's cumulative-`min` formula yields 180: the per-event rules assign the
budget instead of taking a minimum. -/
theorem C4_counterexample :
    (TurnController.decide
        [({ drift_type := DriftType.question_loop, turn_index := 4, description := ""
            severity := mkRat 5 10 } : DriftEvent),
         ({ drift_type := DriftType.speculation_chain, turn_index := 4, description := ""
            severity := mkRat 5 10 } : DriftEvent)]).max_tokens = 200 ∧
      specC4MaxTokens
        [({ drift_type := DriftType.question_loop, turn_index := 4, description := ""
            severity := mkRat 5 10 } : DriftEvent),
         ({ drift_type := DriftType.speculation_chain, turn_index := 4, description := ""
            severity := mkRat 5 10 } : DriftEvent)] = 180 ∧
      ¬ (TurnController.decide
          [({ drift_type := DriftType.question_loop, turn_index := 4, description := ""
              severity := mkRat 5 10 } : DriftEvent),
           ({ drift_type := DriftType.speculation_chain, turn_index := 4, description := ""
              severity := mkRat 5 10 } : DriftEvent)]).max_tokens =
        specC4MaxTokens
          [({ drift_type := DriftType.question_loop, turn_index := 4, description := ""
              severity := mkRat 5 10 } : DriftEvent),
           ({ drift_type := DriftType.speculation_chain, turn_index := 4, description := ""
              severity := mkRat 5 10 } : DriftEvent)] := by
  decide

/-- C4 amended — for every list of drift events, the `max_tokens` returned
by `TurnController.decide` equals the result of starting at 300 and, in
list order, setting the budget to 150 for DENIAL_IGNORED, 180 for
QUESTION_LOOP and 200 for SPECULATION_CHAIN (direct assignment, not a
cumulative `min`), then applying `min(current, 150)` when some event has
severity at least 0.8, then `min(current, 120)` when the list has at least
3 events. -/
theorem C4_amended_assigned_max_tokens (events : List DriftEvent) :
    (TurnController.decide events).max_tokens = assignedMaxTokens events := by
  unfold TurnController.decide assignedMaxTokens
  cases hb : (events.any fun ev => decide (mkRat 8 10 ≤ ev.severity)) <;>
    by_cases hl : 3 ≤ events.length <;>
      simp [hb, hl, foldl_decideStep_max_tokens]

/-! ## C5: mode determination in TurnController.decide -/

/-- The per-event mode writes of the decide loop: DENIAL_IGNORED writes
REPAIR, TOPIC_SHIFT writes REFOCUS, SPECULATION_CHAIN writes FACT_ONLY;
other events leave the mode alone. -/
def lastWriteStep (m : TurnMode) (ev : DriftEvent) : TurnMode :=
  match ev.drift_type with
  | DriftType.denial_ignored => TurnMode.repair
  | DriftType.topic_shift => TurnMode.refocus
  | DriftType.speculation_chain => TurnMode.fact_only
  | _ => m

/-- Last-write-wins mode over a whole event list, starting from NORMAL. -/
def lastWriteMode (events : List DriftEvent) : TurnMode :=
  events.foldl lastWriteStep TurnMode.normal

theorem decideStep_mode (ins : TurnInstruction) (ev : DriftEvent) :
    (decideStep ins ev).mode = lastWriteStep ins.mode ev := by
  cases h : ev.drift_type <;> simp [decideStep, lastWriteStep, h]

theorem foldl_decideStep_mode (events : List DriftEvent) (ins : TurnInstruction) :
    (events.foldl decideStep ins).mode = events.foldl lastWriteStep ins.mode := by
  induction events generalizing ins with
  | nil => rfl
  | cons ev rest ih => rw [List.foldl_cons, List.foldl_cons, ih, decideStep_mode]

/-- C5 counterexample — for [TOPIC_SHIFT (severity 0.6), SPECULATION_CHAIN
(severity 0.8, the detector's severity for that type)], the later of the
two is the SPECULATION_CHAIN event, yet the mode returned is REPAIR, not
FACT_ONLY: the critical override fires because severity 0.8 qualifies. -/
theorem C5_counterexample :
    (TurnController.decide
        [({ drift_type := DriftType.topic_shift, turn_index := 4
            description := "Topic shifted from \x27weather\x27 to \x27lunch\x27 without explicit user consent"
            severity := mkRat 6 10 } : DriftEvent),
         ({ drift_type := DriftType.speculation_chain, turn_index := 4
            description := "Speculative reasoning chained across multiple turns"
            severity := mkRat 8 10 } : DriftEvent)]).mode = TurnMode.repair ∧
      ¬ (TurnController.decide
          [({ drift_type := DriftType.topic_shift, turn_index := 4
              description := "Topic shifted from \x27weather\x27 to \x27lunch\x27 without explicit user consent"
              severity := mkRat 6 10 } : DriftEvent),
           ({ drift_type := DriftType.speculation_chain, turn_index := 4
              description := "Speculative reasoning chained across multiple turns"
              severity := mkRat 8 10 } : DriftEvent)]).mode = TurnMode.fact_only := by
  decide

/-- C5 amended — provided every event's severity is below 0.8 (so the
critical override does not fire), the mode returned by
`TurnController.decide` is last-write-wins over the list: the last
mode-writing event decides (TOPIC_SHIFT gives REFOCUS, SPECULATION_CHAIN
gives FACT_ONLY, DENIAL_IGNORED gives REPAIR), NORMAL if there is none.
In particular, when both a TOPIC_SHIFT and a SPECULATION_CHAIN are present
and no mode-writing event follows the later of them, the later of the two
determines the final mode. -/
theorem C5_amended_last_write_wins (events : List DriftEvent)
    (h : ∀ ev ∈ events, ev.severity < mkRat 8 10) :
    (TurnController.decide events).mode = lastWriteMode events := by
  have hc : (events.any fun ev => decide (mkRat 8 10 ≤ ev.severity)) = false := by
    rw [List.any_eq_false]
    intro ev hm
    simpa using not_le.mpr (h ev hm)
  unfold TurnController.decide lastWriteMode
  by_cases hl : 3 ≤ events.length <;> simp [hc, hl, foldl_decideStep_mode]

/-- C5 amended witness: TOPIC_SHIFT then SPECULATION_CHAIN, both below the
critical threshold; the later event (SPECULATION_CHAIN) decides FACT_ONLY. -/
theorem C5_amended_last_write_wins_witness :
    (∀ ev ∈ [({ drift_type := DriftType.topic_shift, turn_index := 4, description := ""
                severity := mkRat 6 10 } : DriftEvent),
             ({ drift_type := DriftType.speculation_chain, turn_index := 4, description := ""
                severity := mkRat 5 10 } : DriftEvent)], ev.severity < mkRat 8 10) ∧
      (TurnController.decide
          [({ drift_type := DriftType.topic_shift, turn_index := 4, description := ""
              severity := mkRat 6 10 } : DriftEvent),
           ({ drift_type := DriftType.speculation_chain, turn_index := 4, description := ""
              severity := mkRat 5 10 } : DriftEvent)]).mode =
        lastWriteMode
          [({ drift_type := DriftType.topic_shift, turn_index := 4, description := ""
              severity := mkRat 6 10 } : DriftEvent),
           ({ drift_type := DriftType.speculation_chain, turn_index := 4, description := ""
              severity := mkRat 5 10 } : DriftEvent)] :=
  ⟨by decide, C5_amended_last_write_wins _ (by decide)⟩

/-! ## C8: idempotency guard in DriftDetector.detect -/

theorem detect_of_le (d : DriftDetector) (t : Nat) (ui : UserIntent) (ai : AiIntent)
    (tb ta : Option String) (oe : List ObjEvent) (h : (t : Int) ≤ d.last_turn_checked) :
    DriftDetector.detect d t ui ai tb ta oe = (d, []) := by
  unfold DriftDetector.detect
  rw [if_pos h]

theorem detect_fst_last (d : DriftDetector) (t : Nat) (ui : UserIntent) (ai : AiIntent)
    (tb ta : Option String) (oe : List ObjEvent) (h : ¬ (t : Int) ≤ d.last_turn_checked) :
    ((DriftDetector.detect d t ui ai tb ta oe).1).last_turn_checked = t := by
  unfold DriftDetector.detect
  rw [if_neg h]

/-- C8 — for every detector state and every combination of the other
inputs, `detect` with `turn_index` not above the last-processed index
returns the empty list; and a second `detect` call with the same
`turn_index` always returns the empty list, whatever the other inputs of
either call are. -/
theorem C8_idempotent :
    (∀ (d : DriftDetector) (t : Nat) (ui : UserIntent) (ai : AiIntent)
        (tb ta : Option String) (oe : List ObjEvent),
      (t : Int) ≤ d.last_turn_checked →
        (DriftDetector.detect d t ui ai tb ta oe).2 = []) ∧
    (∀ (d : DriftDetector) (t : Nat) (ui ui2 : UserIntent) (ai ai2 : AiIntent)
        (tb ta tb2 ta2 : Option String) (oe oe2 : List ObjEvent),
      (((DriftDetector.detect d t ui ai tb ta oe).1).detect t ui2 ai2 tb2 ta2 oe2).2 = []) := by
  constructor
  · intro d t ui ai tb ta oe h
    rw [detect_of_le d t ui ai tb ta oe h]
  · intro d t ui ui2 ai ai2 tb ta tb2 ta2 oe oe2
    by_cases h : (t : Int) ≤ d.last_turn_checked
    · rw [detect_of_le d t ui ai tb ta oe h]
      rw [detect_of_le d t ui2 ai2 tb2 ta2 oe2 h]
    · have h2 : (t : Int) ≤ ((DriftDetector.detect d t ui ai tb ta oe).1).last_turn_checked := by
        rw [detect_fst_last d t ui ai tb ta oe h]
      rw [detect_of_le _ t ui2 ai2 tb2 ta2 oe2 h2]

/-- C8 witness: a detector that has already processed turn 5 returns no
events for turn 5 again, and a fresh detector called twice at turn 3
returns no events the second time. -/
theorem C8_idempotent_witness :
    ((5 : Nat) : Int) ≤ (⟨5, [], []⟩ : DriftDetector).last_turn_checked ∧
      (DriftDetector.detect ⟨5, [], []⟩ 5 ⟨false, false⟩ ⟨false, false, false⟩
          none none []).2 = [] ∧
      ((DriftDetector.init.detect 3 ⟨false, false⟩ ⟨true, true, true⟩
          (some "weather") (some "lunch") []).1.detect 3 ⟨false, false⟩
          ⟨true, true, true⟩ (some "weather") (some "lunch") []).2 = [] :=
  ⟨by decide,
   C8_idempotent.1 ⟨5, [], []⟩ 5 ⟨false, false⟩ ⟨false, false, false⟩ none none [] (by decide),
   C8_idempotent.2 DriftDetector.init 3 ⟨false, false⟩ ⟨false, false⟩ ⟨true, true, true⟩
     ⟨true, true, true⟩ (some "weather") (some "lunch") (some "weather") (some "lunch") [] []⟩

/-! ## C9: question-loop trigger in DriftDetector -/

/-- The user-intent record of the question-loop scenario: all signals false. -/
def qlUser : UserIntent := { explicit_topic_change := false, requested_speculation := false }

/-- The ai-intent record of the question-loop scenario: only `is_question`. -/
def qlAi : AiIntent := { speculation := false, is_question := true, followup_question := false }

theorem detect_question_step (last : Int) (rq : List Nat) (t : Nat) (h : last < (t : Int)) :
    DriftDetector.detect ⟨last, rq, []⟩ t qlUser qlAi none none [] =
      (⟨(t : Int), lastN 5 (rq ++ [t]), []⟩,
        if 3 ≤ (lastN 5 (rq ++ [t])).length then
          [{ drift_type := DriftType.question_loop, turn_index := t,
             description := "AI is repeatedly asking questions without resolution",
             severity := mkRat 5 10 }]
        else []) := by
  unfold DriftDetector.detect
  rw [if_neg (not_le.mpr h)]
  simp only [qlUser, qlAi, strTruthy]
  split <;> simp_all

/-- C9 — starting from a fresh detector, three `detect` calls at strictly
increasing turn indices with `ai_intent.is_question = true`,
`user_intent.explicit_topic_change = false`, every other signal false and
no object events, produce no QUESTION_LOOP event on the first two calls
and exactly one QUESTION_LOOP event of severity 0.5 on the third. -/
theorem C9_question_loop (t1 t2 t3 : Nat) (h12 : t1 < t2) (h23 : t2 < t3) :
    (DriftDetector.init.detect t1 qlUser qlAi none none []).2 = [] ∧
      ((DriftDetector.init.detect t1 qlUser qlAi none none []).1.detect t2
          qlUser qlAi none none []).2 = [] ∧
      (((DriftDetector.init.detect t1 qlUser qlAi none none []).1.detect t2
          qlUser qlAi none none []).1.detect t3 qlUser qlAi none none []).2 =
        [{ drift_type := DriftType.question_loop, turn_index := t3,
           description := "AI is repeatedly asking questions without resolution",
           severity := mkRat 5 10 }] := by
  have e1 : DriftDetector.init.detect t1 qlUser qlAi none none [] =
      (⟨(t1 : Int), [t1], []⟩, []) := by
    have h := detect_question_step (-1) [] t1 (by omega)
    rw [DriftDetector.init] at *
    rw [h]
    norm_num [lastN]
  have e2 : DriftDetector.detect ⟨(t1 : Int), [t1], []⟩ t2 qlUser qlAi none none [] =
      (⟨(t2 : Int), [t1, t2], []⟩, []) := by
    have h := detect_question_step (t1 : Int) [t1] t2 (by exact_mod_cast h12)
    rw [h]
    norm_num [lastN]
  have e3 : DriftDetector.detect ⟨(t2 : Int), [t1, t2], []⟩ t3 qlUser qlAi none none [] =
      (⟨(t3 : Int), [t1, t2, t3], []⟩,
        [{ drift_type := DriftType.question_loop, turn_index := t3,
           description := "AI is repeatedly asking questions without resolution",
           severity := mkRat 5 10 }]) := by
    have h := detect_question_step (t2 : Int) [t1, t2] t3 (by exact_mod_cast h23)
    rw [h]
    norm_num [lastN]
  rw [e1, e2, e3]
  exact ⟨rfl, rfl, rfl⟩

/-- C9 witness at turns 0, 1, 2. -/
theorem C9_question_loop_witness :
    (0 : Nat) < 1 ∧ (1 : Nat) < 2 ∧
      ((DriftDetector.init.detect 0 qlUser qlAi none none []).2 = [] ∧
        ((DriftDetector.init.detect 0 qlUser qlAi none none []).1.detect 1
            qlUser qlAi none none []).2 = [] ∧
        (((DriftDetector.init.detect 0 qlUser qlAi none none []).1.detect 1
            qlUser qlAi none none []).1.detect 2 qlUser qlAi none none []).2 =
          [{ drift_type := DriftType.question_loop, turn_index := 2,
             description := "AI is repeatedly asking questions without resolution",
             severity := mkRat 5 10 }]) :=
  ⟨by decide, by decide, C9_question_loop 0 1 2 (by decide) (by decide)⟩

/-! ## C3: sticky denial and confirm override in ObjectRegistry -/

/-- C3 — in any registry state in which an object's status is DENIED, a
`register_assumed` call for that name leaves the status DENIED and only
appends one evidence record (refreshing the update turn), touching no
other object; and a `confirm` call for that name sets the status to
CONFIRMED. -/
theorem C3_sticky_denial (r : ObjectRegistry) (name role text note role2 text2 note2 : String)
    (node : ObjectNode)
    (hl : lookupObj r.objects (normalizeObj name).1 = some node)
    (hd : node.status = ObjectStatus.denied) :
    (r.register_assumed name role text note).objects =
      updateObj r.objects (normalizeObj name).1 (fun n =>
        { n with
          evidence := n.evidence ++
            [{ turn_index := r.turn_index, role := role, text := text,
               note := ("(assumed-but-denied) " ++ note).sTrim }]
          last_updated_turn := r.turn_index }) ∧
    (∃ n2, lookupObj (r.register_assumed name role text note).objects (normalizeObj name).1 =
        some n2 ∧ n2.status = ObjectStatus.denied ∧
        n2.evidence = node.evidence ++
          [{ turn_index := r.turn_index, role := role, text := text,
             note := ("(assumed-but-denied) " ++ note).sTrim }]) ∧
    (∀ j, j ≠ (normalizeObj name).1 →
        lookupObj (r.register_assumed name role text note).objects j = lookupObj r.objects j) ∧
    (∃ n3, lookupObj (r.confirm name role2 text2 note2).objects (normalizeObj name).1 =
        some n3 ∧ n3.status = ObjectStatus.confirmed) := by
  rcases hno : normalizeObj name with ⟨oid, olabel⟩
  rw [hno] at hl
  simp only at hl
  have hreg : (r.register_assumed name role text note).objects =
      updateObj r.objects oid (fun n =>
        { n with
          evidence := n.evidence ++
            [{ turn_index := r.turn_index, role := role, text := text,
               note := ("(assumed-but-denied) " ++ note).sTrim }]
          last_updated_turn := r.turn_index }) := by
    unfold ObjectRegistry.register_assumed
    rw [hno]
    simp only [hl, hd, if_true]
  have hcon : (r.confirm name role2 text2 note2).objects =
      updateObj r.objects oid (fun n =>
        { n with
          status := ObjectStatus.confirmed
          last_updated_turn := r.turn_index
          evidence := n.evidence ++
            [{ turn_index := r.turn_index, role := role2, text := text2, note := note2 }] }) := by
    unfold ObjectRegistry.confirm
    rw [hno]
    simp only [hl]
  refine ⟨by simpa using hreg, ?_, ?_, ?_⟩
  · simp only
    rw [hreg, lookupObj_update_self, hl]
    exact ⟨_, rfl, hd, rfl⟩
  · intro j hj
    simp only at hj
    rw [hreg, lookupObj_update_other _ _ _ _ hj]
  · simp only
    rw [hcon, lookupObj_update_self, hl]
    exact ⟨_, rfl, rfl⟩

/-- The registry used by the C3 witness: "sword" denied at turn 1, now at
turn 2. -/
def c3reg : ObjectRegistry :=
  ((ObjectRegistry.init.on_turn_start 1).deny "sword" "user" "I do not have it"
    "no sword").on_turn_start 2

/-- The stored node of the C3 witness registry. -/
def c3node : ObjectNode :=
  { object_id := "sword", label := "sword", status := ObjectStatus.denied,
    evidence := [{ turn_index := 1, role := "user", text := "I do not have it",
                   note := "(denied) no sword" }],
    last_updated_turn := 1 }

/-- C3 witness: the denied "sword" object at turn 2. -/
theorem C3_sticky_denial_witness :
    lookupObj c3reg.objects (normalizeObj "sword").1 = some c3node ∧
      c3node.status = ObjectStatus.denied ∧
      ((c3reg.register_assumed "sword" "ai" "the sword" "").objects =
        updateObj c3reg.objects (normalizeObj "sword").1 (fun n =>
          { n with
            evidence := n.evidence ++
              [{ turn_index := c3reg.turn_index, role := "ai", text := "the sword",
                 note := ("(assumed-but-denied) " ++ "").sTrim }]
            last_updated_turn := c3reg.turn_index }) ∧
      (∃ n2, lookupObj (c3reg.register_assumed "sword" "ai" "the sword" "").objects
          (normalizeObj "sword").1 = some n2 ∧ n2.status = ObjectStatus.denied ∧
          n2.evidence = c3node.evidence ++
            [{ turn_index := c3reg.turn_index, role := "ai", text := "the sword",
               note := ("(assumed-but-denied) " ++ "").sTrim }]) ∧
      (∀ j, j ≠ (normalizeObj "sword").1 →
          lookupObj (c3reg.register_assumed "sword" "ai" "the sword" "").objects j =
            lookupObj c3reg.objects j) ∧
      (∃ n3, lookupObj (c3reg.confirm "sword" "user" "I do have it" "").objects
          (normalizeObj "sword").1 = some n3 ∧ n3.status = ObjectStatus.confirmed)) :=
  ⟨by decide, by decide,
   C3_sticky_denial c3reg "sword" "ai" "the sword" "" "user" "I do have it" "" c3node
     (by decide) (by decide)⟩

/-! ## C1: the at-most-one-ACTIVE invariant -/

/-- A four-step session: focus "a" (turn 1), reject "b" (turn 2), try to
focus the rejected "b" (turn 3), focus "c" (turn 4).  At step 3 `set_focus`
takes the REJECTED early return, which clears `_active_topic_id` without
demoting the still-ACTIVE node "a". -/
def c1trace : TopicTracker :=
  ((((((((TopicTracker.init 64 8 false).on_turn_start 1).set_focus "a").on_turn_start
      2).reject_topic "b" "user denied" "user" "not that" "").on_turn_start
      3).set_focus "b").on_turn_start 4).set_focus "c"

/-- C1 — the claimed invariant "at most one TopicNode has status ACTIVE in
every reachable state" fails on the code: after the `c1trace` session both
"a" and "c" hold status ACTIVE.  `set_focus` on a REJECTED topic clears
the focus id but forgets to demote the previously focused node, so the
next `set_focus` leaves two ACTIVE nodes — contradicting the source's own
documentation of ACTIVE as "the topic currently in focus". -/
theorem C1_two_active_nodes :
    (c1trace.topics.filter (fun e => e.2.status = TopicStatus.active)).length = 2 ∧
      (lookupTopic c1trace.topics "a").map (fun n => n.status) = some TopicStatus.active ∧
      (lookupTopic c1trace.topics "c").map (fun n => n.status) = some TopicStatus.active ∧
      c1trace.active_topic_id = some "c" := by
  decide

/-! ## Eviction lemmas -/

theorem mem_insertByTouched {x e : String × TopicNode} {l : List (String × TopicNode)} :
    e ∈ insertByTouched x l ↔ e = x ∨ e ∈ l := by
  induction l with
  | nil => simp [insertByTouched]
  | cons y ys ih =>
    by_cases h : x.2.last_touched_turn ≤ y.2.last_touched_turn
    · simp [insertByTouched, h]
    · simp [insertByTouched, h, ih]
      tauto

theorem mem_sortByTouched {e : String × TopicNode} {l : List (String × TopicNode)} :
    e ∈ sortByTouched l ↔ e ∈ l := by
  induction l with
  | nil => simp [sortByTouched]
  | cons y ys ih =>
    simp only [sortByTouched, List.foldr_cons] at *
    rw [mem_insertByTouched, ih, List.mem_cons]

theorem lookupTopic_filter_keep (p : String × TopicNode → Bool)
    {ts : List (String × TopicNode)} {j : String} (hp : ∀ n, p (j, n) = true) :
    lookupTopic (ts.filter p) j = lookupTopic ts j := by
  induction ts with
  | nil => simp [lookupTopic]
  | cons e rest ih =>
    obtain ⟨k, n⟩ := e
    by_cases hk : k = j
    · subst hk
      rw [List.filter_cons, hp n]
      simp [lookupTopic]
    · rw [List.filter_cons]
      cases hpk : p (k, n) <;> simp [lookupTopic, hk, ih]

theorem lookupTopic_filter_drop (p : String × TopicNode → Bool)
    {ts : List (String × TopicNode)} {j : String} (hp : ∀ n, p (j, n) = false) :
    lookupTopic (ts.filter p) j = none := by
  induction ts with
  | nil => simp [lookupTopic]
  | cons e rest ih =>
    obtain ⟨k, n⟩ := e
    by_cases hk : k = j
    · subst hk
      rw [List.filter_cons, hp n]
      exact ih
    · rw [List.filter_cons]
      cases hpk : p (k, n) <;> simp [lookupTopic, hk, ih]

theorem lookupTopic_status_update (f : TopicNode → TopicNode)
    (hf : ∀ n, (f n).status = n.status) (ts : List (String × TopicNode)) (i j : String) :
    (lookupTopic (updateTopic ts i f) j).map (fun n => n.status) =
      (lookupTopic ts j).map (fun n => n.status) := by
  by_cases h : j = i
  · subst h
    rw [lookupTopic_update_self]
    cases lookupTopic ts j <;> simp [hf]
  · rw [lookupTopic_update_other _ _ _ _ h]

theorem lookupTopic_status_repairParent (vid : String) (po : Option String)
    (ts : List (String × TopicNode)) (j : String) :
    (lookupTopic (repairParent vid po ts) j).map (fun n => n.status) =
      (lookupTopic ts j).map (fun n => n.status) := by
  cases po with
  | none => rfl
  | some pid =>
    by_cases hpe : pid = ""
    · simp [repairParent, hpe]
    · simp only [repairParent, hpe, if_neg, ite_false]
      exact lookupTopic_status_update
        (fun p => { p with children_ids := p.children_ids.erase vid }) (fun n => rfl) ts pid j

theorem lookupTopic_status_clearChildren (cids : List String)
    (ts : List (String × TopicNode)) (j : String) :
    (lookupTopic (clearChildren cids ts) j).map (fun n => n.status) =
      (lookupTopic ts j).map (fun n => n.status) := by
  induction cids generalizing ts with
  | nil => rfl
  | cons c cs ih =>
    unfold clearChildren at *
    rw [List.foldl_cons, ih,
      lookupTopic_status_update (fun c => { c with parent_id := none }) (fun n => rfl)]

theorem evictOne_status {ts : List (String × TopicNode)} {v j : String} (h : j ≠ v) :
    (lookupTopic (evictOne ts v) j).map (fun n => n.status) =
      (lookupTopic ts j).map (fun n => n.status) := by
  unfold evictOne
  cases hv : lookupTopic ts v with
  | none => rfl
  | some victim =>
    rw [lookupTopic_filter_keep _ (fun n => by simp [h]),
      lookupTopic_status_clearChildren, lookupTopic_status_repairParent]

theorem evictLoop_status {maxT : Nat} {victims : List String}
    {ts : List (String × TopicNode)} {j : String} (h : ∀ v ∈ victims, v ≠ j) :
    (lookupTopic (evictLoop maxT ts victims) j).map (fun n => n.status) =
      (lookupTopic ts j).map (fun n => n.status) := by
  induction victims generalizing ts with
  | nil => rfl
  | cons v rest ih =>
    unfold evictLoop
    split
    · rw [ih (fun w hw => h w (List.mem_cons_of_mem v hw))]
      exact evictOne_status (fun he => h v (List.mem_cons_self v rest) he.symm)
    · rfl

theorem lookupTopic_none_mem {ts : List (String × TopicNode)} {k : String}
    (h : lookupTopic ts k = none) : ∀ e ∈ ts, e.1 ≠ k := by
  induction ts with
  | nil => simp
  | cons e rest ih =>
    obtain ⟨k2, n⟩ := e
    by_cases hk : k2 = k
    · simp [lookupTopic, hk] at h
    · simp only [lookupTopic, hk, if_false] at h
      intro e2 he2
      rcases List.mem_cons.mp he2 with he2 | he2
      · subst he2; exact hk
      · exact ih h e2 he2

theorem mem_updateTopic_status (f : TopicNode → TopicNode) {ts : List (String × TopicNode)}
    {i : String} {e : String × TopicNode} (he : e ∈ updateTopic ts i f) :
    ∃ e0 ∈ ts, e0.1 = e.1 ∧ (e.2 = e0.2 ∨ e.2 = f e0.2) := by
  induction ts with
  | nil => simp [updateTopic] at he
  | cons x rest ih =>
    obtain ⟨k, n⟩ := x
    by_cases hk : k = i
    · rw [updateTopic, if_pos hk] at he
      rcases List.mem_cons.mp he with he | he
      · exact ⟨(k, n), List.mem_cons_self _ _, by rw [he], Or.inr (by rw [he])⟩
      · exact ⟨e, List.mem_cons_of_mem _ he, rfl, Or.inl rfl⟩
    · rw [updateTopic, if_neg hk] at he
      rcases List.mem_cons.mp he with he | he
      · exact ⟨(k, n), List.mem_cons_self _ _, by rw [he], Or.inl (by rw [he])⟩
      · obtain ⟨e0, he0, hkey, hst⟩ := ih he
        exact ⟨e0, List.mem_cons_of_mem _ he0, hkey, hst⟩

theorem mem_repairParent_status {vid : String} {po : Option String}
    {ts : List (String × TopicNode)} {e : String × TopicNode}
    (he : e ∈ repairParent vid po ts) :
    ∃ e0 ∈ ts, e0.1 = e.1 ∧ e0.2.status = e.2.status := by
  cases po with
  | none => exact ⟨e, he, rfl, rfl⟩
  | some pid =>
    by_cases hpe : pid = ""
    · rw [repairParent, if_pos hpe] at he
      exact ⟨e, he, rfl, rfl⟩
    · rw [repairParent, if_neg hpe] at he
      obtain ⟨e0, he0, hkey, hst⟩ := mem_updateTopic_status _ he
      refine ⟨e0, he0, hkey, ?_⟩
      rcases hst with h0 | h0 <;> rw [h0]

theorem mem_clearChildren_status {cids : List String} {ts : List (String × TopicNode)}
    {e : String × TopicNode} (he : e ∈ clearChildren cids ts) :
    ∃ e0 ∈ ts, e0.1 = e.1 ∧ e0.2.status = e.2.status := by
  induction cids generalizing ts with
  | nil => exact ⟨e, he, rfl, rfl⟩
  | cons c cs ih =>
    unfold clearChildren at he
    rw [List.foldl_cons] at he
    obtain ⟨e1, he1, hkey1, hst1⟩ := ih he
    obtain ⟨e0, he0, hkey0, hst0⟩ := mem_updateTopic_status _ he1
    refine ⟨e0, he0, hkey0.trans hkey1, ?_⟩
    rcases hst0 with h0 | h0 <;> rw [← hst1, h0]

theorem mem_evictOne {ts : List (String × TopicNode)} {v : String} {e : String × TopicNode}
    (he : e ∈ evictOne ts v) :
    e.1 ≠ v ∧ ∃ e0 ∈ ts, e0.1 = e.1 ∧ e0.2.status = e.2.status := by
  unfold evictOne at he
  cases hv : lookupTopic ts v with
  | none =>
    rw [hv] at he
    exact ⟨lookupTopic_none_mem hv e he, e, he, rfl, rfl⟩
  | some victim =>
    rw [hv] at he
    have hfe := List.mem_filter.mp he
    refine ⟨by simpa using hfe.2, ?_⟩
    obtain ⟨e1, he1, hkey1, hst1⟩ := mem_clearChildren_status hfe.1
    obtain ⟨e0, he0, hkey0, hst0⟩ := mem_repairParent_status he1
    exact ⟨e0, he0, hkey0.trans hkey1, hst0.trans hst1⟩

theorem protectedEntry_congr (A : Option String) {k : String} {n n' : TopicNode}
    (h : n.status = n'.status) : protectedEntry A k n = protectedEntry A k n' := by
  unfold protectedEntry
  rw [h]

/-- The soft-cap state predicate: either the tracker is within its topic
bound, or every stored entry is protected (the ACTIVE id or REJECTED). -/
def CapInv (t : TopicTracker) : Prop :=
  t.topics.length ≤ t.max_topics ∨
    ∀ e ∈ t.topics, protectedEntry t.active_topic_id e.1 e.2 = true

theorem evictLoop_post (A : Option String) (maxT : Nat) (victims : List String) :
    ∀ ts : List (String × TopicNode),
      (∀ e ∈ ts, protectedEntry A e.1 e.2 = false → e.1 ∈ victims) →
      (evictLoop maxT ts victims).length ≤ maxT ∨
        ∀ e ∈ evictLoop maxT ts victims, protectedEntry A e.1 e.2 = true := by
  induction victims with
  | nil =>
    intro ts hJ
    refine Or.inr fun e he => ?_
    cases hpe : protectedEntry A e.1 e.2
    · exact absurd (hJ e he hpe) (List.not_mem_nil e.1)
    · rfl
  | cons v rest ih =>
    intro ts hJ
    unfold evictLoop
    split
    · refine ih (evictOne ts v) fun e he hpe => ?_
      obtain ⟨hne, e0, he0, hkey, hst⟩ := mem_evictOne he
      have hpe0 : protectedEntry A e0.1 e0.2 = false := by
        rw [hkey, protectedEntry_congr A hst]
        exact hpe
      rcases List.mem_cons.mp (hkey ▸ hJ e0 he0 hpe0) with h | h
      · exact absurd h hne
      · exact h
    · exact Or.inl (by omega)

theorem protectedEntry_true_iff (A : Option String) (k : String) (n : TopicNode) :
    protectedEntry A k n = true ↔ (A = some k ∨ n.status = TopicStatus.rejected) := by
  simp [protectedEntry]

theorem mem_evictionCandidates {t : TopicTracker} {e : String × TopicNode} :
    e ∈ evictionCandidates t ↔
      e ∈ t.topics ∧ protectedEntry t.active_topic_id e.1 e.2 = false := by
  unfold evictionCandidates
  rw [mem_sortByTouched, List.mem_filter]
  simp

theorem enforce_CapInv (t : TopicTracker) : CapInv t.enforce_max_topics := by
  unfold TopicTracker.enforce_max_topics
  split
  · exact Or.inl (by assumption)
  · have hpost := evictLoop_post t.active_topic_id t.max_topics
      ((evictionCandidates t).map (fun e => e.1)) t.topics (by
        intro e he hpe
        exact List.mem_map_of_mem _ (mem_evictionCandidates.mpr ⟨he, hpe⟩))
    rcases hpost with h | h
    · exact Or.inl h
    · exact Or.inr h

theorem enforce_noop {t : TopicTracker} (hcap : CapInv t) : t.enforce_max_topics = t := by
  unfold TopicTracker.enforce_max_topics
  split
  · rfl
  · rcases hcap with h | h
    · omega
    · have hnil : evictionCandidates t = [] := by
        unfold evictionCandidates
        have : t.topics.filter (fun e => ¬ protectedEntry t.active_topic_id e.1 e.2) = [] := by
          rw [List.filter_eq_nil_iff]
          intro e he
          simp [h e he]
        rw [this]
        rfl
      rw [hnil]
      rfl

theorem enforce_fields (t : TopicTracker) :
    (t.enforce_max_topics).active_topic_id = t.active_topic_id ∧
      (t.enforce_max_topics).max_topics = t.max_topics ∧
      (t.enforce_max_topics).turn_index = t.turn_index ∧
      (t.enforce_max_topics).allow_revival = t.allow_revival ∧
      (t.enforce_max_topics).dormant_after_turns = t.dormant_after_turns ∧
      (t.enforce_max_topics).focus_history = t.focus_history := by
  unfold TopicTracker.enforce_max_topics
  split <;> exact ⟨rfl, rfl, rfl, rfl, rfl, rfl⟩

theorem enforce_active_status (t : TopicTracker) {a : String}
    (ha : t.active_topic_id = some a) :
    (lookupTopic (t.enforce_max_topics).topics a).map (fun n => n.status) =
      (lookupTopic t.topics a).map (fun n => n.status) := by
  unfold TopicTracker.enforce_max_topics
  split
  · rfl
  · refine evictLoop_status fun v hv => ?_
    obtain ⟨e, he, hkey⟩ := List.mem_map.mp hv
    obtain ⟨_, hpe⟩ := mem_evictionCandidates.mp he
    intro hva
    rw [hkey, hva, ha] at hpe
    simp [protectedEntry] at hpe

theorem lookupTopic_of_mem_nodup {ts : List (String × TopicNode)}
    (hnd : (ts.map Prod.fst).Nodup) {k : String} {m : TopicNode} (h : (k, m) ∈ ts) :
    lookupTopic ts k = some m := by
  induction ts with
  | nil => simp at h
  | cons e rest ih =>
    obtain ⟨k2, n⟩ := e
    rw [List.map_cons, List.nodup_cons] at hnd
    rcases List.mem_cons.mp h with h | h
    · rw [Prod.mk.injEq] at h
      obtain ⟨hk, hm⟩ := h
      subst hk
      subst hm
      simp [lookupTopic]
    · have hk2 : k2 ≠ k := by
        intro hk
        subst hk
        have hmm := List.mem_map_of_mem Prod.fst h
        exact hnd.1 hmm
      rw [lookupTopic, if_neg hk2]
      exact ih hnd.2 h

theorem CapInv_update (t : TopicTracker) (i : String) (f : TopicNode → TopicNode)
    (hf : ∀ n, (f n).status = n.status) (hcap : CapInv t) :
    CapInv { t with topics := updateTopic t.topics i f } := by
  rcases hcap with h | h
  · exact Or.inl (by simpa [updateTopic_length] using h)
  · refine Or.inr fun e he => ?_
    obtain ⟨e0, he0, hkey, hst⟩ := mem_updateTopic_status f he
    have hst2 : e0.2.status = e.2.status := by
      rcases hst with h0 | h0
      · rw [h0]
      · rw [h0, hf]
    calc protectedEntry t.active_topic_id e.1 e.2
        = protectedEntry t.active_topic_id e0.1 e0.2 := by
          rw [hkey, protectedEntry_congr _ hst2.symm]
      _ = true := h e0 he0

/-- C6 amended — for a tracker with `allow_revival = false` whose stored
state is within the topic bound or wholly protected (`CapInv`, which holds
whenever eviction has been able to run), `register_candidates` on a
candidate denoting an existing REJECTED node changes exactly that node,
appending one evidence record and refreshing its `last_touched_turn` to
the current turn; its status, parent/child links, the active focus and
every other node are unchanged.  (The original claim also asserted
`last_touched_turn` unchanged; the code refreshes it.) -/
theorem C6_amended_reg (t : TopicTracker) (raw role text note : String) (spec : Bool)
    (hint : Option String) (node : TopicNode)
    (hrev : t.allow_revival = false)
    (hl : lookupTopic t.topics (normalizeTopic raw).1 = some node)
    (hrej : node.status = TopicStatus.rejected)
    (hcap : CapInv t) :
    t.register_candidates role text [raw] spec hint note =
      { t with topics := updateTopic t.topics (normalizeTopic raw).1 (fun n =>
          { n with
            evidence := n.evidence ++
              [{ turn_index := t.turn_index, role := role, text := text,
                 note := ("(rejected-topic-mentioned) " ++ note).sTrim }]
            last_touched_turn := t.turn_index }) } ∧
    (∃ n2, lookupTopic (t.register_candidates role text [raw] spec hint note).topics
          (normalizeTopic raw).1 = some n2 ∧
        n2.status = node.status ∧ n2.parent_id = node.parent_id ∧
        n2.children_ids = node.children_ids ∧ n2.last_touched_turn = t.turn_index ∧
        n2.evidence = node.evidence ++
          [{ turn_index := t.turn_index, role := role, text := text,
             note := ("(rejected-topic-mentioned) " ++ note).sTrim }]) ∧
    (∀ j, j ≠ (normalizeTopic raw).1 →
        lookupTopic (t.register_candidates role text [raw] spec hint note).topics j =
          lookupTopic t.topics j) ∧
    (t.register_candidates role text [raw] spec hint note).active_topic_id =
      t.active_topic_id := by
  rcases hno : normalizeTopic raw with ⟨tid, lab⟩
  rw [hno] at hl
  simp only at hl
  have hmain : t.register_candidates role text [raw] spec hint note =
      { t with topics := updateTopic t.topics tid (fun n =>
          { n with
            evidence := n.evidence ++
              [{ turn_index := t.turn_index, role := role, text := text,
                 note := ("(rejected-topic-mentioned) " ++ note).sTrim }]
            last_touched_turn := t.turn_index }) } := by
    unfold TopicTracker.register_candidates
    simp only [List.foldl_cons, List.foldl_nil]
    unfold registerOne
    rw [hno]
    simp only [hl, hrej, hrev, and_self, if_true, true_and]
    exact enforce_noop (CapInv_update t tid _ (fun n => rfl) hcap)
  refine ⟨by simpa using hmain, ?_, ?_, ?_⟩
  · simp only
    rw [hmain]
    simp only
    rw [lookupTopic_update_self, hl]
    exact ⟨_, rfl, rfl, rfl, rfl, rfl, rfl⟩
  · intro j hj
    simp only at hj
    rw [hmain]
    simp only
    rw [lookupTopic_update_other _ _ _ _ hj]
  · rw [hmain]

/-- The tracker of the C6 counterexample and witness: "X" rejected at turn
1, now at turn 2. -/
def c6t : TopicTracker :=
  (((TopicTracker.init 64 8 false).on_turn_start 1).reject_topic "X" "r" "user" ""
    "").on_turn_start 2

/-- The stored node of the C6 tracker. -/
def c6node : TopicNode :=
  { topic_id := "x", label := "X", status := TopicStatus.rejected, parent_id := none,
    children_ids := [],
    evidence := [{ turn_index := 1, role := "user", text := "", note := "(rejected-created)" }],
    last_touched_turn := 1, rejected_reason := "r" }

/-- C6 counterexample — the claim says the rejected candidate's
`last_touched_turn` is unchanged, but re-registering the rejected topic
"X" at turn 2 moves its `last_touched_turn` from 1 to 2 (source line
`existing.last_touched_turn = self._turn_index`). -/
theorem C6_counterexample :
    c6t.allow_revival = false ∧
      (lookupTopic c6t.topics "x").map (fun n => n.status) = some TopicStatus.rejected ∧
      (lookupTopic c6t.topics "x").map (fun n => n.last_touched_turn) = some 1 ∧
      (lookupTopic (c6t.register_candidates "user" "hello" ["X"] false none "").topics
          "x").map (fun n => n.last_touched_turn) = some 2 := by
  decide

/-- C6 witness: the amended theorem applied to the concrete rejected "X". -/
theorem C6_amended_reg_witness :
    c6t.allow_revival = false ∧
      lookupTopic c6t.topics (normalizeTopic "X").1 = some c6node ∧
      c6node.status = TopicStatus.rejected ∧
      (c6t.register_candidates "user" "hello" ["X"] false none "" =
        { c6t with topics := updateTopic c6t.topics (normalizeTopic "X").1 (fun n =>
            { n with
              evidence := n.evidence ++
                [{ turn_index := c6t.turn_index, role := "user", text := "hello",
                   note := ("(rejected-topic-mentioned) " ++ "").sTrim }]
              last_touched_turn := c6t.turn_index }) } ∧
      (∃ n2, lookupTopic (c6t.register_candidates "user" "hello" ["X"] false none "").topics
            (normalizeTopic "X").1 = some n2 ∧
          n2.status = c6node.status ∧ n2.parent_id = c6node.parent_id ∧
          n2.children_ids = c6node.children_ids ∧ n2.last_touched_turn = c6t.turn_index ∧
          n2.evidence = c6node.evidence ++
            [{ turn_index := c6t.turn_index, role := "user", text := "hello",
               note := ("(rejected-topic-mentioned) " ++ "").sTrim }]) ∧
      (∀ j, j ≠ (normalizeTopic "X").1 →
          lookupTopic (c6t.register_candidates "user" "hello" ["X"] false none "").topics j =
            lookupTopic c6t.topics j) ∧
      (c6t.register_candidates "user" "hello" ["X"] false none "").active_topic_id =
        c6t.active_topic_id) :=
  ⟨by decide, by decide, by decide,
   C6_amended_reg c6t "X" "user" "hello" "" false none c6node (by decide) (by decide)
     (by decide) (Or.inl (by decide))⟩

theorem enforce_protected_status (t : TopicTracker) (hnd : (t.topics.map Prod.fst).Nodup)
    {i : String} {n : TopicNode} (hl : lookupTopic t.topics i = some n)
    (hprot : t.active_topic_id = some i ∨ n.status = TopicStatus.rejected) :
    (lookupTopic (t.enforce_max_topics).topics i).map (fun m => m.status) = some n.status := by
  unfold TopicTracker.enforce_max_topics
  split
  · simp [hl]
  · have hvic : ∀ v ∈ (evictionCandidates t).map (fun e => e.1), v ≠ i := by
      intro v hv hvi
      obtain ⟨e, he, hkey⟩ := List.mem_map.mp hv
      obtain ⟨hmem, hpe⟩ := mem_evictionCandidates.mp he
      have hle : lookupTopic t.topics e.1 = some e.2 := lookupTopic_of_mem_nodup hnd hmem
      rw [hkey, hvi, hl] at hle
      have hn : e.2 = n := by
        injection hle with hx
        exact hx.symm
      rw [hkey, hvi, hn, (protectedEntry_true_iff t.active_topic_id i n).mpr hprot] at hpe
      exact absurd hpe (by simp)
    simp only
    rw [evictLoop_status hvic, hl]
    rfl

/-- C7 scenario, step 1: register "a" at turn 1 with `max_topics = 2`. -/
def c7a : TopicTracker :=
  ((TopicTracker.init 2 8 false).on_turn_start 1).register_candidates "user" "about a"
    ["a"] false none ""

/-- C7 scenario, step 2: register "b" (child of "a") at turn 2. -/
def c7b : TopicTracker :=
  (c7a.on_turn_start 2).register_candidates "user" "about b" ["b"] false (some "a") ""

/-- C7 scenario, step 3: register "c" at turn 3, pushing the count to 3 and
triggering eviction of the least-recently-touched "a". -/
def c7c : TopicTracker :=
  (c7b.on_turn_start 3).register_candidates "user" "about c" ["c"] false none ""

/-- C7 — eviction correctness.  (1) A node that is the current ACTIVE id or
is REJECTED survives `enforce_max_topics` with its status intact (stated
for states with duplicate-free keys, which every constructed state has).
(2) After enforcement the count is within the bound or only protected
nodes remain.  (3) Concretely, with `max_topics = 2` and three distinct
non-protected topics registered across turns 1-3, exactly the topic with
the smallest `last_touched_turn` ("a") is evicted, and the victim's child
"b" has its `parent_id` cleared by the link repair. -/
theorem C7_eviction :
    (∀ (t : TopicTracker), (t.topics.map Prod.fst).Nodup →
      ∀ (i : String) (n : TopicNode), lookupTopic t.topics i = some n →
        (t.active_topic_id = some i ∨ n.status = TopicStatus.rejected) →
        (lookupTopic (t.enforce_max_topics).topics i).map (fun m => m.status) =
          some n.status) ∧
    (∀ t : TopicTracker,
      (t.enforce_max_topics).topics.length ≤ t.max_topics ∨
        ∀ e ∈ (t.enforce_max_topics).topics,
          t.active_topic_id = some e.1 ∨ e.2.status = TopicStatus.rejected) ∧
    ((c7b.topics.map (fun e => (e.1, e.2.last_touched_turn))) = [("a", 1), ("b", 2)] ∧
      (lookupTopic c7b.topics "b").map (fun n => n.parent_id) = some (some "a") ∧
      c7c.topics.map (fun e => e.1) = ["b", "c"] ∧
      lookupTopic c7c.topics "a" = none ∧
      (lookupTopic c7c.topics "b").map (fun n => n.parent_id) = some none) := by
  refine ⟨enforce_protected_status, ?_, ?_⟩
  · intro t
    have hcap := enforce_CapInv t
    have hfld := enforce_fields t
    rcases hcap with h | h
    · rw [hfld.2.1] at h
      exact Or.inl h
    · refine Or.inr fun e he => ?_
      have := h e he
      rw [hfld.1] at this
      exact (protectedEntry_true_iff _ _ _).mp this
  · exact ⟨by decide, by decide, by decide, by decide, by decide⟩

/-- C7 witness: survival of the rejected node "x" of `c6t` through
enforcement, with every hypothesis discharged concretely. -/
theorem C7_eviction_witness :
    (c6t.topics.map Prod.fst).Nodup ∧
      lookupTopic c6t.topics "x" = some c6node ∧
      (c6t.active_topic_id = some "x" ∨ c6node.status = TopicStatus.rejected) ∧
      (lookupTopic (c6t.enforce_max_topics).topics "x").map (fun m => m.status) =
        some c6node.status :=
  ⟨by decide, by decide, Or.inr (by decide),
   C7_eviction.1 c6t (by decide) "x" c6node (by decide) (Or.inr (by decide))⟩

/-! ## C10 machinery: the focused node is always ACTIVE -/

/-- Whenever the focus id is set and denotes a stored node, that node's
status is ACTIVE. -/
def ActiveOk (t : TopicTracker) : Prop :=
  ∀ a, t.active_topic_id = some a →
    ∃ n, lookupTopic t.topics a = some n ∧ n.status = TopicStatus.active

theorem status_some_of_map {o : Option TopicNode}
    (h : o.map (fun n => n.status) = some TopicStatus.active) :
    ∃ n, o = some n ∧ n.status = TopicStatus.active := by
  cases o <;> simp_all

theorem lookupTopic_append_left {ts l : List (String × TopicNode)} {j : String}
    {n : TopicNode} (h : lookupTopic ts j = some n) :
    lookupTopic (ts ++ l) j = some n := by
  induction ts with
  | nil => simp [lookupTopic] at h
  | cons e rest ih =>
    obtain ⟨k, m⟩ := e
    by_cases hk : k = j <;> simp_all [lookupTopic]

theorem lookupTopic_append_right {ts l : List (String × TopicNode)} {j : String}
    (h : lookupTopic ts j = none) :
    lookupTopic (ts ++ l) j = lookupTopic l j := by
  induction ts with
  | nil => simp [lookupTopic]
  | cons e rest ih =>
    obtain ⟨k, m⟩ := e
    by_cases hk : k = j <;> simp_all [lookupTopic]

theorem lookupTopic_map_node (h : TopicNode → TopicNode)
    (ts : List (String × TopicNode)) (j : String) :
    lookupTopic (ts.map (fun e => (e.1, h e.2))) j = (lookupTopic ts j).map h := by
  induction ts with
  | nil => rfl
  | cons e rest ih =>
    obtain ⟨k, m⟩ := e
    by_cases hk : k = j <;> simp_all [lookupTopic]

theorem enforce_ActiveOk {t : TopicTracker} (h : ActiveOk t) :
    ActiveOk t.enforce_max_topics := by
  intro a ha
  rw [(enforce_fields t).1] at ha
  obtain ⟨n, hl, hs⟩ := h a ha
  refine status_some_of_map ?_
  rw [enforce_active_status t ha, hl]
  simp [hs]

theorem on_turn_start_ActiveOk {t : TopicTracker} (h : ActiveOk t) (i : Nat) :
    ActiveOk (t.on_turn_start i) := by
  intro a ha
  obtain ⟨n, hl, hs⟩ := h a ha
  unfold TopicTracker.on_turn_start
  simp only
  rw [lookupTopic_map_node, hl]
  refine ⟨dormantNode t.dormant_after_turns i n, rfl, ?_⟩
  unfold dormantNode
  rw [if_pos (Or.inl hs)]
  exact hs

theorem PreservesStatus_ActiveOk {t : TopicTracker} (h : ActiveOk t)
    (ts' : List (String × TopicNode))
    (hp : ∀ a, t.active_topic_id = some a →
      (lookupTopic ts' a).map (fun n => n.status) =
        (lookupTopic t.topics a).map (fun n => n.status)) :
    ∀ a, t.active_topic_id = some a →
      ∃ n, lookupTopic ts' a = some n ∧ n.status = TopicStatus.active := by
  intro a ha
  obtain ⟨n, hl, hs⟩ := h a ha
  refine status_some_of_map ?_
  rw [hp a ha, hl]
  simp [hs]

theorem registerOne_ActiveOk (role text : String) (spec : Bool) (pid0 : Option String)
    (note : String) {t : TopicTracker} (h : ActiveOk t) (raw : String) :
    ActiveOk (registerOne role text spec pid0 note t raw) := by
  unfold registerOne
  rcases hno : normalizeTopic raw with ⟨tid, lab⟩
  simp only
  cases hm : lookupTopic t.topics tid with
  | some existing =>
    simp only
    have hstep : ∀ a, t.active_topic_id = some a →
        (lookupTopic (updateTopic t.topics tid (fun n =>
            let m := { n with
              last_touched_turn := t.turn_index
              evidence := n.evidence ++
                [{ turn_index := t.turn_index, role := role, text := text, note := note }] }
            if spec ∧ ¬ (m.status = TopicStatus.rejected ∨ m.status = TopicStatus.active)
            then { m with status := TopicStatus.speculative }
            else m)) a).map (fun n => n.status) =
          (lookupTopic t.topics a).map (fun n => n.status) := by
      intro a ha
      obtain ⟨n, hl, hs⟩ := h a ha
      by_cases hat : a = tid
      · subst hat
        rw [lookupTopic_update_self, hl]
        rw [hm] at hl
        have he : existing = n := by injection hl
        subst he
        simp only [Option.map_some']
        rw [if_neg (by simp [hs])]
      · rw [lookupTopic_update_other _ _ _ _ hat]
    by_cases hrej : existing.status = TopicStatus.rejected ∧ t.allow_revival = false
    · rw [if_pos hrej]
      exact PreservesStatus_ActiveOk h _ (fun a2 ha2 =>
        lookupTopic_status_update (fun n =>
          { n with
            evidence := n.evidence ++
              [{ turn_index := t.turn_index, role := role, text := text,
                 note := ("(rejected-topic-mentioned) " ++ note).sTrim }]
            last_touched_turn := t.turn_index }) (fun n => rfl) t.topics tid a2)
    · rw [if_neg hrej]
      cases hep : existing.parent_id with
      | some pe =>
        simp only
        exact PreservesStatus_ActiveOk h _ hstep
      | none =>
        cases pid0 with
        | none =>
          simp only
          exact PreservesStatus_ActiveOk h _ hstep
        | some pid =>
          simp only
          split
          · exact PreservesStatus_ActiveOk h _ (fun a2 ha2 => by
              rw [lookupTopic_status_update (fun n => { n with parent_id := some pid })
                (fun n => rfl), hstep a2 ha2])
          · exact PreservesStatus_ActiveOk h _ (fun a2 ha2 => by
              rw [lookupTopic_status_update (fun p =>
                  if tid ∈ p.children_ids then p
                  else { p with children_ids := p.children_ids ++ [tid] }) (fun n => by
                    by_cases hc : tid ∈ n.children_ids <;> simp [hc]),
                lookupTopic_status_update (fun n => { n with parent_id := some pid })
                  (fun n => rfl), hstep a2 ha2])
  | none =>
    simp only
    have hstep : ∀ a, t.active_topic_id = some a →
        (lookupTopic (t.topics ++ [(tid,
            { topic_id := tid
              label := lab
              status := if spec then TopicStatus.speculative else TopicStatus.available
              parent_id := pid0
              children_ids := []
              evidence := [{ turn_index := t.turn_index, role := role, text := text,
                             note := note }]
              last_touched_turn := t.turn_index
              rejected_reason := "" })]) a).map (fun n => n.status) =
          (lookupTopic t.topics a).map (fun n => n.status) := by
      intro a ha
      obtain ⟨n, hl, hs⟩ := h a ha
      rw [lookupTopic_append_left hl, hl]
    cases pid0 with
    | none =>
      simp only
      exact PreservesStatus_ActiveOk h _ hstep
    | some pid =>
      simp only
      split
      · exact PreservesStatus_ActiveOk h _ hstep
      · split
        · exact PreservesStatus_ActiveOk h _ hstep
        · exact PreservesStatus_ActiveOk h _ (fun a2 ha2 => by
            rw [lookupTopic_status_update (fun p =>
                if tid ∈ p.children_ids then p
                else { p with children_ids := p.children_ids ++ [tid] }) (fun n => by
                  by_cases hc : tid ∈ n.children_ids <;> simp [hc]),
              hstep a2 ha2])

theorem register_candidates_ActiveOk {t : TopicTracker} (h : ActiveOk t)
    (role text : String) (cands : List String) (spec : Bool) (hint : Option String)
    (note : String) :
    ActiveOk (t.register_candidates role text cands spec hint note) := by
  unfold TopicTracker.register_candidates
  refine enforce_ActiveOk ?_
  generalize (match hint with
    | some p => if p = "" then t.active_topic_id else some p
    | none => t.active_topic_id) = pid0
  induction cands generalizing t with
  | nil => exact h
  | cons c cs ih =>
    rw [List.foldl_cons]
    exact ih (registerOne_ActiveOk role text spec pid0 note h c)

theorem reject_topic_ActiveOk {t : TopicTracker} (h : ActiveOk t)
    (topic reason role text note : String) :
    ActiveOk (t.reject_topic topic reason role text note) := by
  unfold TopicTracker.reject_topic
  rcases hno : normalizeTopic topic with ⟨tid, lab⟩
  simp only
  refine enforce_ActiveOk ?_
  cases hm : lookupTopic t.topics tid with
  | none =>
    simp only
    split
    · intro a ha
      simp at ha
    · intro a ha
      simp only at ha
      obtain ⟨n, hl, hs⟩ := h a ha
      exact ⟨n, lookupTopic_append_left hl, hs⟩
  | some old =>
    simp only
    split
    · intro a ha
      simp at ha
    · intro a ha
      simp only at ha
      obtain ⟨n, hl, hs⟩ := h a ha
      have hat : a ≠ tid := by
        intro he
        subst he
        simp_all
      refine ⟨n, ?_, hs⟩
      rw [lookupTopic_update_other _ _ _ _ hat]
      exact hl

theorem lookupTopic_update_isSome {ts : List (String × TopicNode)} {i j : String}
    {f : TopicNode → TopicNode} (h : (lookupTopic ts j).isSome) :
    (lookupTopic (updateTopic ts i f) j).isSome := by
  by_cases hj : j = i
  · subst hj
    rw [lookupTopic_update_self]
    cases hx : lookupTopic ts j
    · rw [hx] at h; simp at h
    · simp
  · rw [lookupTopic_update_other _ _ _ _ hj]
    exact h

theorem set_focus_ActiveOk {t : TopicTracker} (h : ActiveOk t) (topic : String) :
    ActiveOk (t.set_focus topic) := by
  unfold TopicTracker.set_focus
  rcases hno : normalizeTopic topic with ⟨tid, lab⟩
  simp only
  cases hm : lookupTopic t.topics tid with
  | some n0 =>
    simp only
    split
    · intro a ha
      simp at ha
    · -- demote previous, then activate tid, then enforce
      refine enforce_ActiveOk ?_
      intro a ha
      simp only at ha
      have ha2 : a = tid := by
        cases t.active_topic_id <;> simp_all
      subst a
      cases hprev : t.active_topic_id with
      | none =>
        simp only
        rw [lookupTopic_update_self, hm]
        exact ⟨_, rfl, rfl⟩
      | some prev =>
        simp only
        cases hpl : lookupTopic t.topics prev with
        | none =>
          simp only
          rw [lookupTopic_update_self, hm]
          exact ⟨_, rfl, rfl⟩
        | some pn =>
          simp only
          split
          · rw [lookupTopic_update_self]
            have hsome : (lookupTopic (updateTopic t.topics prev (fun p =>
                { p with status := TopicStatus.available })) tid).isSome := by
              refine lookupTopic_update_isSome ?_
              rw [hm]
              rfl
            cases hx : lookupTopic (updateTopic t.topics prev (fun p =>
                { p with status := TopicStatus.available })) tid with
            | none => rw [hx] at hsome; simp at hsome
            | some m => exact ⟨_, rfl, rfl⟩
          · rw [lookupTopic_update_self, hm]
            exact ⟨_, rfl, rfl⟩
  | none =>
    simp only
    split
    · intro a ha
      simp at ha
    · refine enforce_ActiveOk ?_
      intro a ha
      simp only at ha
      have ha2 : a = tid := by
        cases t.active_topic_id <;> simp_all
      subst a
      cases hprev : t.active_topic_id with
      | none =>
        simp only
        rw [lookupTopic_update_self, lookupTopic_append_right hm]
        simp [lookupTopic]
      | some prev =>
        simp only
        cases hpl : lookupTopic (t.topics ++ [(tid,
            { topic_id := tid
              label := lab
              status := TopicStatus.available
              parent_id := none
              children_ids := []
              evidence := [{ turn_index := t.turn_index, role := "system", text := "",
                             note := "(focus-created)" }]
              last_touched_turn := t.turn_index
              rejected_reason := "" })]) prev with
        | none =>
          simp only
          rw [lookupTopic_update_self, lookupTopic_append_right hm]
          simp [lookupTopic]
        | some pn =>
          simp only
          split
          · rw [lookupTopic_update_self]
            have hsome : (lookupTopic (updateTopic (t.topics ++ [(tid,
                { topic_id := tid
                  label := lab
                  status := TopicStatus.available
                  parent_id := none
                  children_ids := []
                  evidence := [{ turn_index := t.turn_index, role := "system", text := "",
                                 note := "(focus-created)" }]
                  last_touched_turn := t.turn_index
                  rejected_reason := "" })]) prev (fun p =>
                { p with status := TopicStatus.available })) tid).isSome := by
              refine lookupTopic_update_isSome ?_
              rw [lookupTopic_append_right hm]
              simp [lookupTopic]
            cases hx : lookupTopic (updateTopic (t.topics ++ [(tid,
                { topic_id := tid
                  label := lab
                  status := TopicStatus.available
                  parent_id := none
                  children_ids := []
                  evidence := [{ turn_index := t.turn_index, role := "system", text := "",
                                 note := "(focus-created)" }]
                  last_touched_turn := t.turn_index
                  rejected_reason := "" })]) prev (fun p =>
                { p with status := TopicStatus.available })) tid with
            | none => rw [hx] at hsome; simp at hsome
            | some m => exact ⟨_, rfl, rfl⟩
          · rw [lookupTopic_update_self, lookupTopic_append_right hm]
            simp [lookupTopic]

theorem apply_user_corrections_ActiveOk {t : TopicTracker} (h : ActiveOk t)
    (user_text : String) (sigs : List (String × String)) :
    ActiveOk (t.apply_user_corrections user_text sigs) := by
  unfold TopicTracker.apply_user_corrections
  induction sigs generalizing t with
  | nil => exact h
  | cons s ss ih =>
    rw [List.foldl_cons]
    exact ih (reject_topic_ActiveOk h s.1 s.2 "user" user_text "")

theorem finalize_focus_ActiveOk {t : TopicTracker} (h : ActiveOk t)
    (sugg : Option String) (fb : Bool) :
    ActiveOk (t.finalize_focus sugg fb).1 := by
  unfold TopicTracker.finalize_focus
  split
  · exact set_focus_ActiveOk h _
  · split
    · show ActiveOk
        (match pickMostRecent (t.topics.filter (fun e =>
            e.2.status = TopicStatus.available ∨ e.2.status = TopicStatus.speculative ∨
              e.2.status = TopicStatus.active)) with
          | none => (t, t.active_topic_id)
          | some best => (t.set_focus best.2.topic_id,
              (t.set_focus best.2.topic_id).active_topic_id)).1
      split
      · exact h
      · exact set_focus_ActiveOk h _
    · exact h

/-- The states reachable from a fresh `TopicTracker` via the public
operations, with arbitrary arguments. -/
inductive Reachable : TopicTracker → Prop where
  | init (max_topics dormant_after_turns : Nat) (allow_revival : Bool) :
      Reachable (TopicTracker.init max_topics dormant_after_turns allow_revival)
  | turn {t : TopicTracker} (h : Reachable t) (i : Nat) : Reachable (t.on_turn_start i)
  | register {t : TopicTracker} (h : Reachable t) (role text : String)
      (cands : List String) (spec : Bool) (hint : Option String) (note : String) :
      Reachable (t.register_candidates role text cands spec hint note)
  | reject {t : TopicTracker} (h : Reachable t) (topic reason role text note : String) :
      Reachable (t.reject_topic topic reason role text note)
  | corrections {t : TopicTracker} (h : Reachable t) (user_text : String)
      (sigs : List (String × String)) : Reachable (t.apply_user_corrections user_text sigs)
  | focus {t : TopicTracker} (h : Reachable t) (topic : String) :
      Reachable (t.set_focus topic)
  | finalize {t : TopicTracker} (h : Reachable t) (sugg : Option String) (fb : Bool) :
      Reachable (t.finalize_focus sugg fb).1

theorem reachable_ActiveOk {t : TopicTracker} (h : Reachable t) : ActiveOk t := by
  induction h with
  | init mt dat ar => intro a ha; simp [TopicTracker.init] at ha
  | turn h i ih => exact on_turn_start_ActiveOk ih i
  | register h role text cands spec hint note ih =>
    exact register_candidates_ActiveOk ih role text cands spec hint note
  | reject h topic reason role text note ih =>
    exact reject_topic_ActiveOk ih topic reason role text note
  | corrections h user_text sigs ih => exact apply_user_corrections_ActiveOk ih user_text sigs
  | focus h topic ih => exact set_focus_ActiveOk ih topic
  | finalize h sugg fb ih => exact finalize_focus_ActiveOk ih sugg fb

/-- C10 — in every state reachable from a fresh tracker via the public
operations, `should_avoid_assertive_questions` returns false: whenever the
active topic id refers to a stored node, that node's status is ACTIVE
(`reachable_ActiveOk`), so the SPECULATIVE branch of the helper is never
taken. -/
theorem C10_no_assertive_question_guard (t : TopicTracker) (h : Reachable t) :
    t.should_avoid_assertive_questions = false := by
  have hA := reachable_ActiveOk h
  unfold TopicTracker.should_avoid_assertive_questions
  cases ha : t.active_topic_id with
  | none => rfl
  | some a =>
    obtain ⟨n, hl, hs⟩ := hA a ha
    simp [hl, hs]

/-- C10 witness: the concrete four-step session `c1trace` is reachable and
the helper returns false on it. -/
theorem C10_witness :
    Reachable c1trace ∧ c1trace.should_avoid_assertive_questions = false :=
  ⟨(((((((Reachable.init 64 8 false).turn 1).focus "a").turn 2).reject "b" "user denied"
      "user" "not that" "").turn 3).focus "b").turn 4 |>.focus "c",
   C10_no_assertive_question_guard c1trace
     ((((((((Reachable.init 64 8 false).turn 1).focus "a").turn 2).reject "b" "user denied"
       "user" "not that" "").turn 3).focus "b").turn 4 |>.focus "c")⟩
